import Mathlib

/-!
Verification of the timeline-normalization and trajectory-reconstruction
pipeline of the MyGoogleTimeLine_visualizing repository.

The Python sources (src/main/utils.py, src/main/parser.py,
src/main/trajectory.py) are shallowly embedded below.  Instants are
modelled the way pandas stores them, as integer counts of nanoseconds
since the Unix epoch; numeric inputs that denote milliseconds are
converted on entry.  Coordinates and other float-valued fields are
modelled as rational numbers, and the
semi-structured JSON documents as an inductive value type carrying Python
truthiness.  The pandas operations the code relies on (to_datetime,
sort_values, fillna-based filtering, resample(...).ffill(), rolling
means with min_periods=1) are modelled explicitly at their call sites.
-/

/-- Python values as decoded from a JSON document by json.load.  JSON null
decodes to Python None and is stored as `PVal.null`; a dict lookup of a
null-valued key returns Python None, exactly like an absent key.  The
`dtime` constructor stands for a native datetime object: it cannot be
produced by json.load but `utils.to_timestamp` accepts such values, so the
model includes it (carrying the instant it denotes, in epoch ms). -/
inductive PVal where
  | null
  | bool (b : Bool)
  | num (q : ℚ)
  | str (s : String)
  | dtime (ms : ℚ)
  | list (xs : List PVal)
  | dict (fields : List (String × PVal))

/-- Python truthiness: None, False, 0, the empty string, the empty list and
the empty dict are falsy; datetimes are truthy. -/
def pvTruthy : PVal → Bool
  | .null => false
  | .bool b => b
  | .num q => decide (q ≠ 0)
  | .str s => decide (s ≠ "")
  | .dtime _ => true
  | .list xs => !xs.isEmpty
  | .dict fs => !fs.isEmpty

/-- Python dict.get(key): the first binding of the key, with a stored null
returned as Python None.  The parser only calls .get on dict values; on any
other shape Python would raise AttributeError, a path no entry of the
claims exercises, modelled as None. -/
def dictGet : PVal → String → Option PVal
  | .dict fs, k =>
    match fs.lookup k with
    | some .null => none
    | some v => some v
    | none => none
  | _, _ => none

/-- Python `key in entry` on a dict entry (a null-valued key counts as
present). -/
def hasKey (v : PVal) (k : String) : Bool :=
  match v with
  | .dict fs => fs.any (fun p => p.1 == k)
  | _ => false

/-- Python `a or b` over optional values: the first operand when truthy,
otherwise the second operand (whatever its truthiness). -/
def pyOr2 (a b : Option PVal) : Option PVal :=
  match a with
  | some v => if pvTruthy v then some v else b
  | none => b

/-- Magnitude bound of a pandas nanosecond timestamp (signed 64-bit):
pandas stores every instant as an integer count of nanoseconds since the
epoch, and conversion raises when that count does not fit.  Modelled
symmetrically. -/
def nsBound : ℕ := 9223372036854775807

/-- An epoch millisecond count q (an int or float in Python) as the integer
nanosecond count pandas stores: q * 10^6 nanoseconds, any fractional
nanosecond remainder truncated. -/
def msToNs (q : ℚ) : ℤ := (q.num * 1000000).fdiv q.den

/-- Representability of an integer nanosecond count as a pandas
timestamp. -/
def nsInBounds (ns : ℤ) : Bool := decide (ns.natAbs ≤ nsBound)

/-- Whitespace characters removed by Python str.strip(). -/
def pyWhitespace (c : Char) : Bool :=
  c = ' ' || c = '\t' || c = '\n' || c = '\r' ||
    c = Char.ofNat 11 || c = Char.ofNat 12

/-- Python str.strip() on the character list of a string. -/
def trimChars (cs : List Char) : List Char :=
  ((cs.dropWhile pyWhitespace).reverse.dropWhile pyWhitespace).reverse

/-- Python str.isdigit on a character list, restricted to ASCII digits, as
used on the digit-string epoch-milliseconds path of to_timestamp. -/
def isDigitChars (cs : List Char) : Bool := !cs.isEmpty && cs.all Char.isDigit

/-- Value of an ASCII digit string, as Python int() computes it (callers
check `isDigitChars` first). -/
def charsDigitsToNat (cs : List Char) : ℕ :=
  cs.foldl (fun n c => 10 * n + (c.toNat - 48)) 0

/-- Decimal digits to a natural number, rejecting any non-digit string. -/
def digitsToNat? (cs : List Char) : Option ℕ :=
  if isDigitChars cs then some (charsDigitsToNat cs) else none

/-- Split a character list at every occurrence of a separator character,
matching String.split semantics for one-character separators. -/
def splitChar (c : Char) (cs : List Char) : List (List Char) :=
  cs.foldr (fun ch acc =>
    match acc with
    | [] => [[ch]]
    | g :: gs => if ch = c then [] :: g :: gs else (ch :: g) :: gs) [[]]

/-- Days since 1970-01-01 of a proleptic Gregorian civil date, by Howard
Hinnant's days-from-civil algorithm; used to model the external datetime
parsing library. -/
def daysFromCivil (y m d : ℤ) : ℤ :=
  let ys := y - (if m ≤ 2 then 1 else 0)
  let era := ys.fdiv 400
  let yoe := ys - era * 400
  let mp := if 2 < m then m - 3 else m + 9
  let doy := (153 * mp + 2).fdiv 5 + d - 1
  let doe := yoe * 365 + yoe.fdiv 4 - yoe.fdiv 100 + doy
  era * 146097 + doe - 719468

/-- Gregorian leap-year test. -/
def isLeapYear (y : ℤ) : Bool :=
  (y.emod 4 == 0 && y.emod 100 != 0) || y.emod 400 == 0

/-- Number of days of a month of a given year. -/
def daysInMonth (y m : ℤ) : ℤ :=
  if m == 2 then (if isLeapYear y then 29 else 28)
  else if m == 4 || m == 6 || m == 9 || m == 11 then 30
  else 31

/-- Modelled external collaborator: pandas.to_datetime(s, utc=True,
errors="coerce") on a restricted ISO-8601 subset — "YYYY-MM-DD", optionally
followed by "THH:MM:SS" with an optional trailing "Z".  Returns the instant
in epoch nanoseconds, or none (pandas NaT) when the string does not parse
or the instant falls outside the representable range. -/
def pdCoerceDatetime (cs : List Char) : Option ℤ := do
  let (datePart, timePart) ←
    match splitChar 'T' cs with
    | [d] => some (d, (none : Option (List Char)))
    | [d, t] => some (d, some t)
    | _ => none
  let (y, m, d) ←
    match splitChar '-' datePart with
    | [ystr, mstr, dstr] => do
      let yn ← digitsToNat? ystr
      let mn ← digitsToNat? mstr
      let dn ← digitsToNat? dstr
      if ystr.length == 4 && mstr.length == 2 && dstr.length == 2 then
        some ((yn : ℤ), (mn : ℤ), (dn : ℤ))
      else none
    | _ => none
  if 1 ≤ m ∧ m ≤ 12 ∧ 1 ≤ d ∧ d ≤ daysInMonth y m then do
    let secsOfDay ←
      match timePart with
      | none => some (0 : ℤ)
      | some tp => do
        let tp := if tp.getLast? = some 'Z' then tp.dropLast else tp
        match splitChar ':' tp with
        | [hstr, mistr, sstr] => do
          let h ← digitsToNat? hstr
          let mi ← digitsToNat? mistr
          let sec ← digitsToNat? sstr
          if hstr.length == 2 && mistr.length == 2 && sstr.length == 2
              && h < 24 && mi < 60 && sec < 60 then
            some ((h : ℤ) * 3600 + (mi : ℤ) * 60 + (sec : ℤ))
          else none
        | _ => none
    let nscount : ℤ := (daysFromCivil y m d * 86400 + secsOfDay) * 1000000000
    if nsInBounds nscount then some nscount else none
  else none

/-- Result of utils.to_timestamp: Python None, the pandas NaT sentinel, or
a real instant, stored the way pandas stores it — as an integer count of
nanoseconds since the epoch. -/
inductive TSResult where
  | pynone
  | NaT
  | ts (ns : ℤ)
deriving DecidableEq

/-- Python truthiness of a to_timestamp result: real pandas Timestamps are
truthy (datetime objects have default truthiness), the NaT singleton is
falsy (NaTType defines its boolean value as False), and None is falsy. -/
def tsrTruthy : TSResult → Bool
  | .ts _ => true
  | _ => false

/-- utils.to_timestamp.  None stays None; ints and floats (and booleans,
which are ints in Python) are epoch milliseconds, with the out-of-bounds
exception caught and turned into None; stripped digit strings are epoch
milliseconds likewise; other strings go through the coercing datetime
parser, whose failure yields the NaT sentinel, not None; native datetimes
convert directly (out-of-bounds caught as None); any other type falls
through to None. -/
def toTimestamp : Option PVal → TSResult
  | none => .pynone
  | some .null => .pynone
  | some (.bool b) => .ts (if b then 1000000 else 0)
  | some (.num q) =>
    if nsInBounds (msToNs q) then .ts (msToNs q) else .pynone
  | some (.str s) =>
    let cs := trimChars s.data
    if isDigitChars cs then
      let ns : ℤ := (charsDigitsToNat cs : ℤ) * 1000000
      if nsInBounds ns then .ts ns else .pynone
    else
      match pdCoerceDatetime cs with
      | some ns => .ts ns
      | none => .NaT
  | some (.dtime q) =>
    if nsInBounds (msToNs q) then .ts (msToNs q) else .pynone
  | some (.list _) => .pynone
  | some (.dict _) => .pynone

/-- utils.E7_FACTOR: fixed-point divisor for E7-encoded coordinates. -/
def E7_FACTOR : ℚ := 10000000

/-- A row of the parsed point table, with columns timestamp (an integer
count of epoch nanoseconds, as pandas stores instants), latitude,
longitude, accuracy, speed.  Latitude and longitude are optional because
the rows produced by pandas resampling can be empty in every column except
the grid timestamp; rows produced by extraction always carry both
coordinates. -/
structure TRow where
  t : ℤ
  lat : Option ℚ
  lon : Option ℚ
  acc : Option ℚ
  speed : Option ℚ
deriving DecidableEq, Repr

/-- Python float(value) on the values extraction feeds it: ints and floats
are returned as-is and booleans convert to 0 or 1.  On strings Python
parses decimal notation and raises ValueError for anything else, and on
other types it raises TypeError; no claim exercises a non-numeric value at
a float() call site, and those paths are modelled as none. -/
def pyFloat : PVal → Option ℚ
  | .num q => some q
  | .bool b => some (if b then 1 else 0)
  | _ => none

/-- TimelineParser._extract_point: resolve a position sub-object through
the four schema variants, decode E7 fixed-point coordinates, chain the
accuracy aliases by Python truthiness, and prefer a payload-level timestamp
when it normalizes to a truthy (real) instant, falling back to the
caller-supplied entry timestamp otherwise. -/
def extractPoint (payload : PVal) (t : ℤ) : Option TRow :=
  let position : Option PVal :=
    if hasKey payload "position" &&
        (match dictGet payload "position" with | some (.dict _) => true | _ => false) then
      pyOr2 (dictGet ((dictGet payload "position").getD (.dict [])) "point")
        (dictGet payload "position")
    else if hasKey payload "point" then dictGet payload "point"
    else if hasKey payload "latitudeE7" && hasKey payload "longitudeE7" then
      some (.dict
        ((match dictGet payload "latitudeE7" with
          | some v => [("latE7", v)] | none => []) ++
         (match dictGet payload "longitudeE7" with
          | some v => [("lngE7", v)] | none => [])))
    else if hasKey payload "latE7" && hasKey payload "lngE7" then
      some payload
    else none
  match position with
  | none => none
  | some pos =>
    if !pvTruthy pos then none
    else
      match dictGet pos "latE7", dictGet pos "lngE7" with
      | some latv, some lngv =>
        match pyFloat latv, pyFloat lngv with
        | some latq, some lngq =>
          let lat := latq / E7_FACTOR
          let lon := lngq / E7_FACTOR
          let accuracy := pyOr2 (pyOr2 (dictGet payload "accuracy")
            (dictGet payload "verticalAccuracy")) (dictGet payload "hAccuracy")
          let speedv := dictGet payload "speed"
          let parsedT : ℤ :=
            match toTimestamp (dictGet payload "timestamp") with
            | .ts ns => ns
            | _ => t
          some { t := parsedT, lat := some lat, lon := some lon,
                 acc := accuracy.bind pyFloat, speed := speedv.bind pyFloat }
        | _, _ => none
      | _, _ => none

/-- One step of the fallback loop of _extract_timestamp: when the key is
present and its normalization is not None (a real instant or NaT), that
result is returned; otherwise the loop continues. -/
def tryTimestampKey (e : PVal) (k : String) : Option TSResult :=
  if hasKey e k then
    match toTimestamp (dictGet e k) with
    | .pynone => none
    | r => some r
  else none

/-- TimelineParser._extract_timestamp: chain the raw values of timestamp,
timestampMs and eventTime by Python truthiness, normalize the chain result
once, and return it whenever it is not None — including when it is the NaT
sentinel; only a None result reaches the startTimestamp /
startTimestampMs fallback loop. -/
def extractTimestamp (e : PVal) : TSResult :=
  let tsv := pyOr2 (pyOr2 (dictGet e "timestamp") (dictGet e "timestampMs"))
    (dictGet e "eventTime")
  match toTimestamp tsv with
  | .pynone =>
    match tryTimestampKey e "startTimestamp" with
    | some r => r
    | none =>
      match tryTimestampKey e "startTimestampMs" with
      | some r => r
      | none => .pynone
  | r => r

/-- TimelineParser._extract_from_entry: an entry whose resolved timestamp
is falsy (None or NaT) contributes nothing; otherwise raw-signal points,
then the direct point on the entry, then activity-segment start and end
locations are extracted in order.  Per-location segment timestamps fall
back to the entry timestamp when their own normalization is falsy. -/
def extractFromEntry (e : PVal) : List TRow :=
  let tsr := extractTimestamp e
  if !tsrTruthy tsr then []
  else
    let t : ℤ := match tsr with | .ts ns => ns | _ => 0
    let rawPts : List TRow :=
      if hasKey e "rawSignal" then
        let rawSignal := dictGet e "rawSignal"
        let signals : Option PVal :=
          match rawSignal with
          | some (.dict fs) => dictGet (.dict fs) "signal"
          | other => other
        match signals with
        | some (.list sigs) => sigs.filterMap (fun s => extractPoint s t)
        | _ => []
      else []
    let direct : List TRow := (extractPoint e t).toList
    let segPts : List TRow :=
      if hasKey e "activitySegment" then
        match dictGet e "activitySegment" with
        | some seg =>
          let segSide := fun (key : String) =>
            match dictGet seg key with
            | some loc =>
              if pvTruthy loc then
                let segT : ℤ :=
                  match toTimestamp (dictGet seg (key ++ "Timestamp")) with
                  | .ts ns => ns
                  | _ => t
                (extractPoint loc segT).toList
              else []
            | none => []
          segSide "startLocation" ++ segSide "endLocation"
        | none => []
      else []
    rawPts ++ direct ++ segPts

/-- TimelineParser._collect_points: concatenate the timelineEdits,
timelineObjects and locations containers, in that order, when each is
present and is a list, and extract every entry. -/
def collectPoints (raw : PVal) : List TRow :=
  let containers : List PVal :=
    match raw with
    | .dict _ =>
      (match dictGet raw "timelineEdits" with | some (.list xs) => xs | _ => []) ++
      (match dictGet raw "timelineObjects" with | some (.list xs) => xs | _ => []) ++
      (match dictGet raw "locations" with | some (.list xs) => xs | _ => [])
    | _ => []
  containers.flatMap extractFromEntry

/-- Row ordering by timestamp, used by pandas sort_values("timestamp"). -/
def rowLE (a b : TRow) : Prop := a.t ≤ b.t

instance : DecidableRel rowLE := fun a b => inferInstanceAs (Decidable (a.t ≤ b.t))

instance : IsTotal TRow rowLE := ⟨fun a b => le_total a.t b.t⟩

instance : IsTrans TRow rowLE := ⟨fun _ _ _ h1 h2 => le_trans h1 h2⟩

/-- TimelineParser.parse before deduplication: collect, return the typed
empty table when nothing was collected, drop rows missing coordinates
(extracted rows always carry a real timestamp, so the timestamp part of
dropna is vacuous), sort ascending by timestamp, and, when maxAccuracy is
set, keep exactly the rows whose accuracy filled with maxAccuracy is at
most maxAccuracy. -/
def preDedup (raw : PVal) (maxAcc : Option ℚ) : List TRow :=
  let pts := collectPoints raw
  if pts.isEmpty then []
  else
    let kept := pts.filter (fun r => r.lat.isSome && r.lon.isSome)
    let sorted := List.insertionSort rowLE kept
    match maxAcc with
    | none => sorted
    | some m => sorted.filter (fun r => decide ((r.acc.getD m) ≤ m))

open Classical in
/-- Modelled external collaborator math.atan2(y, x), by its standard case
analysis; the embedded code only ever reaches the 0 < x branch. -/
noncomputable def atan2 (y x : ℝ) : ℝ :=
  if 0 < x then Real.arctan (y / x)
  else if x < 0 ∧ 0 ≤ y then Real.arctan (y / x) + Real.pi
  else if x < 0 ∧ y < 0 then Real.arctan (y / x) - Real.pi
  else if x = 0 ∧ 0 < y then Real.pi / 2
  else if x = 0 ∧ y < 0 then -(Real.pi / 2)
  else 0

/-- utils.haversine_distance: great-circle distance in meters with Earth
radius 6,371,000 m; math.radians(x) is x * pi / 180. -/
noncomputable def haversine_distance (lat1 lon1 lat2 lon2 : ℝ) : ℝ :=
  let radius : ℝ := 6371000
  let phi1 := lat1 * Real.pi / 180
  let phi2 := lat2 * Real.pi / 180
  let dPhi := (lat2 - lat1) * Real.pi / 180
  let dLambda := (lon2 - lon1) * Real.pi / 180
  let a := Real.sin (dPhi / 2) ^ 2 +
    Real.cos phi1 * Real.cos phi2 * Real.sin (dLambda / 2) ^ 2
  let c := 2 * atan2 (Real.sqrt a) (Real.sqrt (1 - a))
  radius * c

/-- Great-circle distance between two rows, as _deduplicate computes it
from the latitude/longitude columns.  Rows reaching _deduplicate have
passed dropna, so both coordinates are present; the getD default is never
exercised. -/
noncomputable def rowDist (a b : TRow) : ℝ :=
  haversine_distance ((a.lat.getD 0 : ℚ) : ℝ) ((a.lon.getD 0 : ℚ) : ℝ)
    ((b.lat.getD 0 : ℚ) : ℝ) ((b.lon.getD 0 : ℚ) : ℝ)

open Classical in
/-- Deduplication loop body of TimelineParser._deduplicate: a row closer
than the tolerance to the last kept row is skipped, any other row is kept
and becomes the last kept row. -/
noncomputable def dedupGo (tol : ℝ) (last : TRow) : List TRow → List TRow
  | [] => []
  | p :: ps =>
    if rowDist last p < tol then dedupGo tol last ps
    else p :: dedupGo tol p ps

/-- TimelineParser._deduplicate: the empty table is returned unchanged,
otherwise the first row is always kept and the loop runs over the rest. -/
noncomputable def deduplicate (tol : ℝ) : List TRow → List TRow
  | [] => []
  | p :: ps => p :: dedupGo tol p ps

/-- TimelineParser default deduplication tolerance, in meters. -/
def dedup_tolerance_m : ℝ := 5

/-- TimelineParser.parse on an already-decoded document: collection,
dropna, sort, accuracy filtering, then deduplication. -/
noncomputable def parse (raw : PVal) (maxAcc : Option ℚ) (tol : ℝ) : List TRow :=
  deduplicate tol (preDedup raw maxAcc)

/-- One day in nanoseconds: the pandas resampling origin is the midnight
starting the first timestamp's day (origin="start_day"). -/
def dayNs : ℤ := 86400000000000

/-- The positionally last row whose timestamp is at or before the given
grid label — the value pandas reindex-with-ffill assigns to that label. -/
def lastAtOrBefore (label : ℤ) : List TRow → Option TRow
  | [] => none
  | r :: rs =>
    match lastAtOrBefore label rs with
    | some x => some x
    | none => if r.t ≤ label then some r else none

/-- TrajectoryBuilder.resample modelling pandas
set_index("timestamp").resample(freq).ffill().reset_index() for a
fixed-frequency alias of f seconds: the output grid runs over bucket left
edges, aligned to multiples of the bucket width from the midnight origin,
from the bucket of the first row to the bucket of the last row; each grid
timestamp takes every column of the most recent input row at or before it
(forward fill), and a grid slot before the first row is left empty. -/
def resample (f : ℕ) (rows : List TRow) : List TRow :=
  match rows with
  | [] => []
  | r0 :: _ =>
    let w : ℤ := 1000000000 * (f : ℤ)
    let tn : ℤ := ((rows.getLast?).getD r0).t
    let origin : ℤ := dayNs * (r0.t.fdiv dayNs)
    let k0 : ℤ := (r0.t - origin).fdiv w
    let kn : ℤ := (tn - origin).fdiv w
    (List.range (kn - k0 + 1).toNat).map (fun j =>
      let label : ℤ := origin + w * (k0 + (j : ℤ))
      match lastAtOrBefore label rows with
      | some r => { r with t := label }
      | none => { t := label, lat := none, lon := none, acc := none, speed := none })

/-- Trailing rolling mean with window w and min_periods=1 at index i, as
pandas Series.rolling(w, min_periods=1).mean() computes it: the mean of
the values present among the last w entries up to and including index i,
or an empty cell when none of them is present. -/
def rollMean (w : ℕ) (xs : List (Option ℚ)) (i : ℕ) : Option ℚ :=
  let vs := ((xs.take (i + 1)).drop (i + 1 - w)).filterMap id
  if vs.isEmpty then none else some (vs.sum / (vs.length : ℚ))

/-- Row update of one smoothing step: replace the latitude and longitude
cells of the row at index p.1 by the rolling means of the two coordinate
columns, leaving every other column of the row unchanged. -/
def smoothAt (w : ℕ) (lats lons : List (Option ℚ)) (p : ℕ × TRow) : TRow :=
  { p.2 with lat := rollMean w lats p.1, lon := rollMean w lons p.1 }

/-- TrajectoryBuilder.smooth: a window of 1 or less returns the table
unchanged; otherwise the latitude and longitude columns are replaced by
their trailing rolling means and every other column is untouched. -/
def smooth (w : ℕ) (rows : List TRow) : List TRow :=
  if w ≤ 1 then rows
  else
    rows.enum.map
      (smoothAt w (rows.map (fun r => r.lat)) (rows.map (fun r => r.lon)))

/-- Error message of TrajectoryBuilder.__init__ on an empty table. -/
def emptyTrajectoryMsg : String := "Input DataFrame is empty; cannot build trajectory"

/-- trajectory.build_trajectory: TrajectoryBuilder.__init__ raises on an
empty table and otherwise sorts by timestamp; then the optional resample
(for a fixed-frequency alias of f seconds), then smoothing, then build. -/
def build_trajectory (rows : List TRow) (resampleFreq : Option ℕ)
    (smoothingWindow : ℕ) : Except String (List TRow) :=
  if rows.isEmpty then .error emptyTrajectoryMsg
  else
    let sorted := List.insertionSort rowLE rows
    let regridded :=
      match resampleFreq with
      | some f => resample f sorted
      | none => sorted
    .ok (smooth smoothingWindow regridded)

/-- Rows of a builder result, for stating facts about a successful build. -/
def builtRows : Except String (List TRow) → List TRow
  | .ok rows => rows
  | .error _ => []

open Classical in
/-- Specification-side deduplication, following the spec sentence for claim
C4 word for word: keep a subsequent point only if its great-circle distance
from the last kept point EXCEEDS the tolerance (strict), so a point at a
distance exactly equal to the tolerance is dropped.  To be compared with
the embedded `deduplicate`. -/
noncomputable def dedupSpecGo (tol : ℝ) (last : TRow) : List TRow → List TRow
  | [] => []
  | p :: ps =>
    if tol < rowDist last p then p :: dedupSpecGo tol p ps
    else dedupSpecGo tol last ps

/-- Specification-side deduplication entry point for claim C4. -/
noncomputable def dedupSpec (tol : ℝ) : List TRow → List TRow
  | [] => []
  | p :: ps => p :: dedupSpecGo tol p ps

/-- Normalization outcome of a single field, as the spec's resolution order
for claim C8 uses it: a field resolves when it normalizes to a real
instant. -/
def resolvesTo (e : PVal) (k : String) : Option ℤ :=
  match toTimestamp (dictGet e k) with
  | .ts q => some q
  | _ => none

/-- Specification-side entry timestamp resolution, following the spec
sentence for claim C8 word for word: try timestamp, then timestampMs, then
eventTime, then startTimestamp, then startTimestampMs; the first field
that resolves to a real instant wins.  To be compared with the embedded
`extractTimestamp`. -/
def extractTimestampSpec (e : PVal) : Option ℚ :=
  (((resolvesTo e "timestamp").orElse fun _ => resolvesTo e "timestampMs").orElse
      fun _ => (resolvesTo e "eventTime")).orElse
    fun _ => ((resolvesTo e "startTimestamp").orElse
      fun _ => resolvesTo e "startTimestampMs")

/-- Entry whose explicit timestamp field is the integer 0 (a resolvable
instant, the epoch) while timestampMs is 5000: Python truthiness skips the
0 before it is ever normalized. -/
def entryTsOrder : PVal := .dict [("timestamp", .num 0), ("timestampMs", .num 5000)]

/-- Entry with an unparseable (but truthy) timestamp string, a resolvable
nested start-time field and perfectly good coordinates. -/
def entryNaTFallback : PVal :=
  .dict [("timestamp", .str "x"), ("startTimestampMs", .num 1000),
    ("latE7", .num 10), ("lngE7", .num 10)]

/-- Record payload carrying accuracy 0 together with a truthy
verticalAccuracy. -/
def payloadAccZeroVert : PVal :=
  .dict [("accuracy", .num 0), ("verticalAccuracy", .num 7),
    ("latE7", .num 10), ("lngE7", .num 10)]

/-- Record payload carrying accuracy 0 and no other accuracy alias. -/
def payloadAccZeroOnly : PVal :=
  .dict [("accuracy", .num 0), ("latE7", .num 10), ("lngE7", .num 10)]

/-- Record payload carrying accuracy 0 and hAccuracy 0: the truthiness
chain returns its last operand, the raw hAccuracy value 0. -/
def payloadAccZeroH : PVal :=
  .dict [("accuracy", .num 0), ("hAccuracy", .num 0),
    ("latE7", .num 10), ("lngE7", .num 10)]

/-- Location record at the origin (0 N, 0 E) at epoch millisecond 1000. -/
def locAtOrigin : PVal :=
  .dict [("timestampMs", .num 1000), ("latitudeE7", .num 0), ("longitudeE7", .num 0)]

/-- Location record at the north pole (90 N, 0 E) at the same instant,
epoch millisecond 1000. -/
def locAtPole : PVal :=
  .dict [("timestampMs", .num 1000), ("latitudeE7", .num 900000000),
    ("longitudeE7", .num 0)]

/-- Document with two locations sharing one instant but lying far apart. -/
def docDupInstant : PVal := .dict [("locations", .list [locAtOrigin, locAtPole])]

/-- Parsed row at the origin at epoch millisecond 1000. -/
def rowOrigin : TRow := ⟨1000000000, some 0, some 0, none, none⟩

/-- Parsed row at the north pole at epoch millisecond 1000. -/
def rowPole : TRow := ⟨1000000000, some 90, some 0, none, none⟩

/-- Two samples 120 seconds apart at different coordinates, for the
resampling claims: latitudes 0 and 10, longitudes 0. -/
def sampleEarly : TRow := ⟨0, some 0, some 0, none, none⟩

/-- Companion sample of `sampleEarly`, 120 seconds later. -/
def sampleLate : TRow := ⟨120000000000, some 10, some 0, none, none⟩

/-- Five equally spaced samples with latitudes 0, 10, 20, 30, 40, for the
smoothing claims. -/
def fiveRows : List TRow :=
  [⟨0, some 0, some 0, none, none⟩,
   ⟨60000000000, some 10, some 0, none, none⟩,
   ⟨120000000000, some 20, some 0, none, none⟩,
   ⟨180000000000, some 30, some 0, none, none⟩,
   ⟨240000000000, some 40, some 0, none, none⟩]

/-- Row with unknown accuracy, for the accuracy-filter claim. -/
def rowAccNone : TRow := ⟨0, some 1, some 1, none, none⟩

/-- Row with accuracy 5. -/
def rowAcc5 : TRow := ⟨1, some 2, some 2, some 5, none⟩

/-- Row with accuracy 20. -/
def rowAcc20 : TRow := ⟨2, some 3, some 3, some 20, none⟩

/-- Accuracy filtering stage of TimelineParser.parse
(df[df["accuracy"].fillna(max_accuracy) <= max_accuracy]), named so the
filtering claims can speak about it directly; `preDedup` applies exactly
this filter when maxAccuracy is set. -/
def accuracyFilter (m : ℚ) (rows : List TRow) : List TRow :=
  rows.filter (fun r => decide ((r.acc.getD m) ≤ m))

/-! Helper lemmas. -/

theorem haversine_self (la lo : ℝ) : haversine_distance la lo la lo = 0 := by
  simp only [haversine_distance, atan2, sub_self, zero_mul, zero_div,
    Real.sin_zero, ne_eq, OfNat.ofNat_ne_zero, not_false_eq_true, zero_pow,
    mul_zero, add_zero, Real.sqrt_zero, sub_zero, Real.sqrt_one, zero_lt_one,
    if_true, Real.arctan_zero]

theorem haversine_pole : haversine_distance 0 0 90 0 = 3185500 * Real.pi := by
  have hsin : Real.sin (((90 : ℝ) - 0) * Real.pi / 180 / 2) ^ 2 = 1 / 2 := by
    have h : ((90 : ℝ) - 0) * Real.pi / 180 / 2 = Real.pi / 4 := by ring
    rw [h, Real.sin_pi_div_four, div_pow, Real.sq_sqrt (by norm_num : (0:ℝ) ≤ 2)]
    norm_num
  have hcos : Real.cos ((90 : ℝ) * Real.pi / 180) = 0 := by
    have h : (90 : ℝ) * Real.pi / 180 = Real.pi / 2 := by ring
    rw [h, Real.cos_pi_div_two]
  have hlam : Real.sin (((0 : ℝ) - 0) * Real.pi / 180 / 2) ^ 2 = 0 := by
    norm_num
  simp only [haversine_distance]
  rw [hsin, hcos, hlam]
  have ha : (1 : ℝ) / 2 + Real.cos (0 * Real.pi / 180) * 0 * 0 = 1 / 2 := by ring
  rw [ha]
  have hsub : (1 : ℝ) - 1 / 2 = 1 / 2 := by norm_num
  rw [hsub]
  have hpos : (0 : ℝ) < Real.sqrt (1 / 2) := Real.sqrt_pos.mpr (by norm_num)
  rw [atan2, if_pos hpos, div_self (ne_of_gt hpos), Real.arctan_one]
  ring

theorem rowDist_self (r : TRow) : rowDist r r = 0 := haversine_self _ _

theorem rowDist_origin_pole : rowDist rowOrigin rowPole = 3185500 * Real.pi := by
  have h : rowDist rowOrigin rowPole = haversine_distance 0 0 90 0 := by
    simp [rowDist, rowOrigin, rowPole]
  rw [h, haversine_pole]

theorem pole_not_lt_five : ¬ rowDist rowOrigin rowPole < dedup_tolerance_m := by
  rw [rowDist_origin_pole, dedup_tolerance_m]
  have h := Real.pi_gt_three
  intro hlt
  nlinarith

theorem dedupGo_sublist (tol : ℝ) :
    ∀ (l : List TRow) (last : TRow), (dedupGo tol last l).Sublist l := by
  intro l
  induction l with
  | nil => intro last; simp [dedupGo]
  | cons p ps ih =>
    intro last
    simp only [dedupGo]
    by_cases h : rowDist last p < tol
    · rw [if_pos h]; exact (ih last).cons p
    · rw [if_neg h]; exact (ih p).cons₂ p

theorem deduplicate_sublist (tol : ℝ) :
    ∀ l : List TRow, (deduplicate tol l).Sublist l := by
  intro l
  cases l with
  | nil => simp [deduplicate]
  | cons p ps => simp only [deduplicate]; exact (dedupGo_sublist tol ps p).cons₂ p

theorem dedupGo_chain (tol : ℝ) :
    ∀ (l : List TRow) (last : TRow),
      List.Chain' (fun a b => tol ≤ rowDist a b) (last :: dedupGo tol last l) := by
  intro l
  induction l with
  | nil => intro last; simp [dedupGo]
  | cons p ps ih =>
    intro last
    simp only [dedupGo]
    by_cases h : rowDist last p < tol
    · rw [if_pos h]; exact ih last
    · rw [if_neg h]
      exact List.chain'_cons.mpr ⟨not_lt.mp h, ih p⟩

theorem smooth_map_of_comm {α : Type} (g : TRow → α)
    (hg : ∀ (r : TRow) (la lo : Option ℚ), g { r with lat := la, lon := lo } = g r)
    (w : ℕ) (rows : List TRow) : (smooth w rows).map g = rows.map g := by
  by_cases h : w ≤ 1
  · simp [smooth, h]
  · simp only [smooth, if_neg h, List.map_map]
    have h2 : (g ∘ smoothAt w (rows.map fun r => r.lat) (rows.map fun r => r.lon))
        = (g ∘ Prod.snd) :=
      funext fun p => hg p.2 _ _
    rw [h2, ← List.map_map]
    rw [show rows.enum = rows.enumFrom 0 from rfl, List.enumFrom_map_snd]

theorem smooth_length (w : ℕ) (rows : List TRow) :
    (smooth w rows).length = rows.length := by
  by_cases h : w ≤ 1
  · simp [smooth, h]
  · simp only [smooth, if_neg h, List.length_map]
    rw [show rows.enum = rows.enumFrom 0 from rfl, List.enumFrom_length]

theorem preDedup_sorted (raw : PVal) (maxAcc : Option ℚ) :
    List.Sorted rowLE (preDedup raw maxAcc) := by
  simp only [preDedup]
  by_cases h : (collectPoints raw).isEmpty
  · rw [if_pos h]; exact List.sorted_nil
  · rw [if_neg h]
    have hs := List.sorted_insertionSort rowLE
      (List.filter (fun r => r.lat.isSome && r.lon.isSome) (collectPoints raw))
    cases maxAcc with
    | none => exact hs
    | some m => exact hs.filter _

/-! Claim theorems. -/

/-- Claim C3, counterexample: on the empty point sequence the trajectory
builder does not return the empty sequence — it raises (the embedded
builder returns the error value carrying the ValueError message raised by
TrajectoryBuilder.__init__), so the claimed ok-with-empty-output result is
refuted at the concrete empty input. -/
theorem build_trajectory_empty_counterexample :
    build_trajectory ([] : List TRow) none 1 = .error emptyTrajectoryMsg ∧
      build_trajectory ([] : List TRow) none 1 ≠ .ok [] := by
  refine ⟨rfl, ?_⟩
  intro h
  rw [show build_trajectory ([] : List TRow) none 1 = .error emptyTrajectoryMsg
    from rfl] at h
  exact Except.noConfusion h

/-- Claim C3 (amended): for the empty point sequence the trajectory
builder raises a ValueError ("Input DataFrame is empty; cannot build
trajectory") for every resampling/smoothing configuration; an empty input
is a failure condition of the builder, which callers must check for before
invoking it. -/
theorem build_trajectory_empty_amended :
    ∀ (freq : Option ℕ) (w : ℕ),
      build_trajectory ([] : List TRow) freq w = .error emptyTrajectoryMsg :=
  fun _ _ => rfl

/-- Claim C6: when maxAccuracy is set, the filtering stage
df[df["accuracy"].fillna(maxAccuracy) <= maxAccuracy] drops exactly the
rows whose accuracy is known and exceeds maxAccuracy and retains every row
with unknown accuracy; concretely, with maxAccuracy 10 and accuracies
[None, 5, 20] the None and 5 rows are retained and the 20 row is
dropped. -/
theorem accuracy_filter_confirmed :
    (∀ (m : ℚ) (rows : List TRow),
      accuracyFilter m rows = rows.filter (fun r =>
        match r.acc with
        | none => true
        | some a => decide (a ≤ m))) ∧
    accuracyFilter 10 [rowAccNone, rowAcc5, rowAcc20] = [rowAccNone, rowAcc5] := by
  constructor
  · intro m rows
    apply List.filter_congr
    intro r _
    cases hr : r.acc with
    | none => simp [Option.getD]
    | some a => simp [Option.getD]
  · decide

/-- Claim C7, counterexample: the timestamp normalization function does
not always return none or a real instant — on the unparseable string
"hello" it returns the NaT sentinel, which is neither none nor a value
denoting a real instant. -/
theorem to_timestamp_nat_counterexample :
    ¬ (∀ v : Option PVal,
        toTimestamp v = .pynone ∨ ∃ n : ℤ, toTimestamp v = .ts n) := by
  intro h
  rcases h (some (.str "hello")) with h1 | ⟨n, hq⟩
  · exact absurd h1 (by decide)
  · rw [show toTimestamp (some (.str "hello")) = .NaT from by decide] at hq
    exact TSResult.noConfusion hq

/-- Claim C7 (amended): the normalization function never throws (it is a
total function); null input yields none; numeric input (epoch ms) yields
the corresponding instant or, when out of range, none; digit strings are
epoch ms; parseable date strings yield their instant; an unparseable
non-digit string yields the NaT sentinel — a value that is not none and
does not denote a real instant, treated as falsy/unusable downstream;
lists and dicts yield none. -/
theorem to_timestamp_amended :
    toTimestamp none = .pynone ∧
    toTimestamp (some .null) = .pynone ∧
    toTimestamp (some (.num 1000)) = .ts 1000000000 ∧
    toTimestamp (some (.str "123")) = .ts 123000000 ∧
    toTimestamp (some (.str "1970-01-02")) = .ts 86400000000000 ∧
    toTimestamp (some (.str "hello")) = .NaT ∧
    (∀ q : ℚ, toTimestamp (some (.num q)) = .ts (msToNs q) ∨
      toTimestamp (some (.num q)) = .pynone) ∧
    (∀ q : ℚ, toTimestamp (some (.dtime q)) = .ts (msToNs q) ∨
      toTimestamp (some (.dtime q)) = .pynone) ∧
    (∀ xs : List PVal, toTimestamp (some (.list xs)) = .pynone) ∧
    (∀ fs : List (String × PVal), toTimestamp (some (.dict fs)) = .pynone) := by
  refine ⟨by decide, by decide, by decide, by decide, by decide, by decide,
    ?_, ?_, fun _ => rfl, fun _ => rfl⟩
  · intro q
    by_cases h : nsInBounds (msToNs q) = true
    · left; simp [toTimestamp, h]
    · right; simp [toTimestamp, h]
  · intro q
    by_cases h : nsInBounds (msToNs q) = true
    · left; simp [toTimestamp, h]
    · right; simp [toTimestamp, h]

/-- Claim C9, counterexample: a record payload whose accuracy field is
present with the numeric value 0 and whose hAccuracy field is also 0 does
get accuracy 0 reported — the truthiness chain returns its last operand
even when that operand is the falsy 0 — refuting the claim that extraction
never reports accuracy 0. -/
theorem accuracy_zero_counterexample :
    dictGet payloadAccZeroH "accuracy" = some (.num 0) ∧
      (extractPoint payloadAccZeroH 0).map TRow.acc = some (some 0) := by
  exact ⟨rfl, by decide⟩

/-- Claim C9 (amended): a zero accuracy value is treated as absent by the
truthiness chain and the extracted accuracy is taken from the first truthy
of verticalAccuracy and hAccuracy; when no operand of the chain is truthy
the chain yields the raw hAccuracy value, so the extracted accuracy is 0
(not absent) when hAccuracy is present with value 0, and none when every
alias is absent. -/
theorem accuracy_chain_amended :
    (extractPoint payloadAccZeroVert 0).map TRow.acc = some (some 7) ∧
    (extractPoint payloadAccZeroOnly 0).map TRow.acc = some none ∧
    (extractPoint payloadAccZeroH 0).map TRow.acc = some (some 0) := by
  decide

/-- Claim C10: smoothing changes only the latitude and longitude columns —
the row count and the timestamp, accuracy and speed values of every row
are unchanged for every window — and with a window of 1 or 0 (all naturals
at most 1) the table is returned completely unchanged. -/
theorem smooth_frame_effect_confirmed :
    ∀ (w : ℕ) (rows : List TRow),
      (smooth w rows).map TRow.t = rows.map TRow.t ∧
      (smooth w rows).map TRow.acc = rows.map TRow.acc ∧
      (smooth w rows).map TRow.speed = rows.map TRow.speed ∧
      (smooth w rows).length = rows.length ∧
      smooth 1 rows = rows ∧
      smooth 0 rows = rows := by
  intro w rows
  refine ⟨smooth_map_of_comm TRow.t (fun _ _ _ => rfl) w rows,
    smooth_map_of_comm TRow.acc (fun _ _ _ => rfl) w rows,
    smooth_map_of_comm TRow.speed (fun _ _ _ => rfl) w rows,
    smooth_length w rows, ?_, ?_⟩
  · simp [smooth]
  · simp [smooth]

/-- Claim C8, counterexample: field resolution is not "first field that
resolves wins" — in an entry whose explicit timestamp field is the integer
0 (which resolves to the epoch instant) and whose timestampMs is 5000, the
raw truthiness chain skips the falsy 0 before normalizing anything, so the
code resolves 5000 while the spec's resolution order resolves 0. -/
theorem extract_timestamp_order_counterexample :
    extractTimestampSpec entryTsOrder = some 0 ∧
      extractTimestamp entryTsOrder = .ts 5000000000 ∧
      TSResult.ts 5000000000 ≠ TSResult.ts 0 := by
  refine ⟨by decide, by decide, by decide⟩

/-- Claim C8 (amended): entry-level resolution first selects the first
Python-truthy RAW value among timestamp, timestampMs and eventTime and
normalizes only that one; any non-None normalization result — including the
NaT sentinel obtained from a truthy but unparseable value — is final and
suppresses the startTimestamp/startTimestampMs fallback; the fallback
fields are tried, in order, only when the chain result normalizes to None;
and an entry whose resolution is None or NaT contributes zero points. -/
theorem extract_timestamp_truthiness_amended :
    extractTimestamp entryTsOrder = .ts 5000000000 ∧
    extractTimestamp entryNaTFallback = .NaT ∧
    extractFromEntry entryNaTFallback = [] ∧
    (∀ e : PVal,
      extractTimestamp e = .pynone ∨ extractTimestamp e = .NaT →
        extractFromEntry e = []) := by
  refine ⟨by decide, by decide, by decide, ?_⟩
  intro e he
  simp only [extractFromEntry]
  rcases he with he | he <;> rw [he] <;> rfl

/-- Claim C8, witness: the amended theorem applied at the empty entry,
whose resolution is None, so it contributes zero points. -/
theorem extract_timestamp_truthiness_amended_witness :
    extractFromEntry (PVal.dict []) = [] :=
  extract_timestamp_truthiness_amended.2.2.2 (PVal.dict []) (Or.inl (by decide))

/-- Claim C4, counterexample: a point at a distance exactly equal to the
tolerance IS kept by the code (the loop drops only strictly closer points),
while the spec's strict "exceeds" wording drops it: with tolerance 0 and
two identical points (distance exactly 0), the code keeps both and the
spec-side deduplication keeps only the first. -/
theorem dedup_exact_tolerance_counterexample :
    deduplicate (0 : ℝ) [rowOrigin, rowOrigin] = [rowOrigin, rowOrigin] ∧
      dedupSpec (0 : ℝ) [rowOrigin, rowOrigin] = [rowOrigin] := by
  have h0 : rowDist rowOrigin rowOrigin = 0 := rowDist_self rowOrigin
  constructor
  · simp only [deduplicate, dedupGo]
    rw [if_neg (by rw [h0]; exact lt_irrefl 0)]
  · simp only [dedupSpec, dedupSpecGo]
    rw [if_neg (by rw [h0]; exact lt_irrefl 0)]

/-- Claim C4 (amended): deduplication processes the time-sorted points in
order, always keeps the first point, and keeps each subsequent point if
and only if its great-circle distance from the last kept point is at least
the tolerance (default 5 meters) — so a point at a distance exactly equal
to the tolerance IS kept; consecutive kept points are always at least the
tolerance apart, and for three consecutive points at identical coordinates
followed by one point farther than the tolerance, exactly points 1 and 4
are kept. -/
theorem dedup_keeps_at_least_tolerance_amended :
    (∀ (tol : ℝ) (p : TRow) (ps : List TRow),
      (deduplicate tol (p :: ps)).head? = some p) ∧
    (∀ (tol : ℝ) (l : List TRow),
      List.Chain' (fun a b => tol ≤ rowDist a b) (deduplicate tol l)) ∧
    deduplicate (0 : ℝ) [rowOrigin, rowOrigin] = [rowOrigin, rowOrigin] ∧
    deduplicate dedup_tolerance_m [rowOrigin, rowOrigin, rowOrigin, rowPole] =
      [rowOrigin, rowPole] := by
  have h0 : rowDist rowOrigin rowOrigin = 0 := rowDist_self rowOrigin
  refine ⟨fun tol p ps => rfl, ?_, ?_, ?_⟩
  · intro tol l
    cases l with
    | nil => simp [deduplicate]
    | cons p ps => exact dedupGo_chain tol ps p
  · simp only [deduplicate, dedupGo]
    rw [if_neg (by rw [h0]; exact lt_irrefl 0)]
  · have hlt : rowDist rowOrigin rowOrigin < dedup_tolerance_m := by
      rw [h0, dedup_tolerance_m]; norm_num
    simp only [deduplicate, dedupGo]
    rw [if_pos hlt, if_pos hlt, if_neg pole_not_lt_five]

/-- Claim C5, counterexample: the table returned by parse is not strictly
time-ordered — deduplication is purely spatial, so a document with two
locations at the same instant but far apart (origin and north pole, whose
great-circle distance exceeds the 5 m tolerance) yields two retained rows
sharing one instant. -/
theorem parse_duplicate_instant_counterexample :
    ¬ List.Chain' (fun a b : ℤ => a < b)
        ((parse docDupInstant none dedup_tolerance_m).map TRow.t) := by
  have h1 : ((0 : ℚ) / E7_FACTOR) = 0 := by norm_num [E7_FACTOR]
  have h2 : ((900000000 : ℚ) / E7_FACTOR) = 90 := by norm_num [E7_FACTOR]
  have hpre : preDedup docDupInstant none =
      [⟨1000000000, some ((0 : ℚ) / E7_FACTOR), some ((0 : ℚ) / E7_FACTOR),
         none, none⟩,
       ⟨1000000000, some ((900000000 : ℚ) / E7_FACTOR),
         some ((0 : ℚ) / E7_FACTOR), none, none⟩] := rfl
  rw [h1, h2] at hpre
  have hpre2 : preDedup docDupInstant none = [rowOrigin, rowPole] := hpre
  have hparse : parse docDupInstant none dedup_tolerance_m = [rowOrigin, rowPole] := by
    rw [parse, hpre2]
    simp only [deduplicate, dedupGo]
    rw [if_neg pole_not_lt_five]
  rw [hparse]
  norm_num [rowOrigin, rowPole, List.chain'_cons]

/-- Claim C5 (amended): the point table returned by parse is ascending by
timestamp (non-strictly); deduplication is purely spatial, so two retained
points may share the same instant when they are at least the tolerance
apart. -/
theorem parse_sorted_amended :
    ∀ (raw : PVal) (maxAcc : Option ℚ) (tol : ℝ),
      List.Sorted (fun a b : ℤ => a ≤ b) ((parse raw maxAcc tol).map TRow.t) := by
  intro raw maxAcc tol
  have h1 := preDedup_sorted raw maxAcc
  have h2 : (parse raw maxAcc tol).Sublist (preDedup raw maxAcc) :=
    deduplicate_sublist tol _
  have h3 : List.Sorted rowLE (parse raw maxAcc tol) := List.Pairwise.sublist h2 h1
  exact List.pairwise_map.mpr h3

/-- Claim C1, counterexample: resampling two known samples 120 seconds
apart (latitudes 0 and 10) at 60 seconds does NOT produce the time-weighted
midpoint at the 60-second mark — the builder forward-fills, so the middle
output row carries the earlier sample's latitude 0, not the midpoint 5. -/
theorem resample_midpoint_counterexample :
    (builtRows (build_trajectory [sampleEarly, sampleLate] (some 60) 1)).map TRow.lat =
        [some 0, some 0, some 10] ∧
      (builtRows (build_trajectory [sampleEarly, sampleLate] (some 60) 1)).map TRow.lat ≠
        [some 0, some 5, some 10] := by
  refine ⟨by decide, by decide⟩

/-- Claim C1 (amended): when resampling is requested, the builder re-grids
the series onto fixed-width buckets aligned to multiples of the bucket
width from the midnight origin of the first timestamp's day, and
forward-fills: every grid timestamp receives all columns of the most
recent sample at or before it; grid slots before the first sample are left
empty; there is no interpolate flag and no interpolation — for two samples
120 seconds apart resampled at 60 seconds (timestamps in integer epoch
nanoseconds), the output row at the 60-second mark repeats the earlier
sample's fields.  The second conjunct shows the empty leading slot and the
day-aligned grid for samples starting at the 30-second mark. -/
theorem resample_forward_fill_amended :
    (∀ la lo ac sp la2 lo2 ac2 sp2 : Option ℚ,
      build_trajectory [⟨0, la, lo, ac, sp⟩, ⟨120000000000, la2, lo2, ac2, sp2⟩]
          (some 60) 1 =
        .ok [⟨0, la, lo, ac, sp⟩, ⟨60000000000, la, lo, ac, sp⟩,
          ⟨120000000000, la2, lo2, ac2, sp2⟩]) ∧
    build_trajectory [⟨30000000000, some 1, some 2, some 3, some 4⟩,
        ⟨150000000000, some 5, some 6, none, none⟩] (some 60) 1 =
      .ok [⟨0, none, none, none, none⟩,
        ⟨60000000000, some 1, some 2, some 3, some 4⟩,
        ⟨120000000000, some 1, some 2, some 3, some 4⟩] := by
  exact ⟨fun la lo ac sp la2 lo2 ac2 sp2 => rfl, rfl⟩

/-- Claim C2, counterexample: smoothing is not a centered moving average —
with window 3 over five samples of latitudes 0, 10, 20, 30, 40, the
smoothed value at interior index 2 is the trailing mean 10 (of samples 0,
10, 20), not the centered mean 20 (of samples 10, 20, 30). -/
theorem smooth_centered_counterexample :
    ((smooth 3 fiveRows).map TRow.lat).get? 2 = some (some 10) ∧
      ((smooth 3 fiveRows).map TRow.lat).get? 2 ≠ some (some 20) := by
  norm_num [smooth, smoothAt, rollMean, fiveRows, List.enum, List.enumFrom,
    List.filterMap_cons, List.filterMap_nil, id]

/-- Claim C2 (amended): for every input sequence and window w > 1, the
smoothing stage replaces each latitude/longitude with a TRAILING moving
average over the current sample and up to w - 1 preceding samples; at the
start of the sequence it averages over however many samples are available
without failing; for w = 3 on a sequence of length 5, the value at every
index i at least 2 is the arithmetic mean of that sample and its two
predecessors (shown here for all inputs of length 5). -/
theorem smooth_trailing_amended :
    ∀ (t0 t1 t2 t3 t4 : ℤ) (x0 x1 x2 x3 x4 y0 y1 y2 y3 y4 : ℚ),
      smooth 3 [⟨t0, some x0, some y0, none, none⟩, ⟨t1, some x1, some y1, none, none⟩,
        ⟨t2, some x2, some y2, none, none⟩, ⟨t3, some x3, some y3, none, none⟩,
        ⟨t4, some x4, some y4, none, none⟩] =
      [⟨t0, some x0, some y0, none, none⟩,
       ⟨t1, some ((x0 + x1) / 2), some ((y0 + y1) / 2), none, none⟩,
       ⟨t2, some ((x0 + x1 + x2) / 3), some ((y0 + y1 + y2) / 3), none, none⟩,
       ⟨t3, some ((x1 + x2 + x3) / 3), some ((y1 + y2 + y3) / 3), none, none⟩,
       ⟨t4, some ((x2 + x3 + x4) / 3), some ((y2 + y3 + y4) / 3), none, none⟩] := by
  intro t0 t1 t2 t3 t4 x0 x1 x2 x3 x4 y0 y1 y2 y3 y4
  norm_num [smooth, smoothAt, rollMean, List.enum, List.enumFrom,
    List.filterMap_cons, List.filterMap_nil, id]
  norm_num [add_assoc]
